import Mathlib

/-!
Verification of mailchimp-sync.

A shallow embedding of `mailchimp-sync.go`: the three functions `validateArgs`,
`getEntriesToSync` and `syncMailChimp`, with the database driver, the command
line context and the MailChimp client taken as parameters.  A Go `panic` is an
`Except.error` carrying a `Failure`; the effects of a run (the database fetch,
the submission, every `fmt.Printf`) are recorded in order in a trace.
-/

set_option linter.dupNamespace false

namespace MailchimpSync

/-! ## Data model -/

/-- Modelled from the spec: the type `mailchimpsync.Entry` of the package `types`,
whose declaration is not among the sources.  The source reads and writes the three
string fields `FirstName`, `LastName` and `EmailAddress`. -/
structure Entry where
  FirstName : String
  LastName : String
  EmailAddress : String
deriving DecidableEq, Repr

/-- The type `gochimp.Email` as the source uses it: only the field `Email` is set. -/
structure Email where
  Email : String
deriving DecidableEq, Repr

/-- A Go `map[string]interface{}` holding strings, as an association list in
insertion order; the nil map is `none` at the place of use. -/
abbrev MergeVars := List (String × String)

/-- Assignment `m[k] = v` on a map: replaces the value of an existing key,
adds the key otherwise. -/
def MergeVars.set : MergeVars → String → String → MergeVars
  | [], k, v => [(k, v)]
  | (k0, v0) :: rest, k, v =>
    if k0 = k then (k0, v) :: rest else (k0, v0) :: MergeVars.set rest k v

/-- The type `gochimp.ListsMember` as the source uses it. -/
structure ListsMember where
  Email : Email
  MergeVars : Option MergeVars
deriving DecidableEq, Repr

/-- The type `gochimp.BatchSubscribe` as the source uses it. -/
structure BatchSubscribe where
  ApiKey : String
  ListId : String
  Batch : List ListsMember
  DoubleOptin : Bool
  UpdateExisting : Bool
deriving DecidableEq, Repr

/-- One entry of the `Error` list of a `gochimp.BatchSubscribeResponse`. -/
structure BatchSubscribeError where
  Emails : Email
  Code : Int
  Error : String
deriving DecidableEq, Repr

/-- The type `gochimp.BatchSubscribeResponse` as the source uses it. -/
structure BatchSubscribeResponse where
  AddCount : Int
  UpdateCount : Int
  ErrorCount : Int
  Error : List BatchSubscribeError
deriving DecidableEq, Repr

/-- The error value `rows.Scan` returns: the destination count differs from the
number of values of the row ("sql: expected N destination arguments in Scan, not M"),
or the value of the column at `index`, named `name`, is NULL and cannot be stored in a
string ("sql: Scan error on column index N, name ...: converting NULL to string is
unsupported"). -/
inductive ScanError where
  | arity (expected got : Nat)
  | convertNull (index : Nat) (name : String)
deriving DecidableEq, Repr

/-- The value a run panics with, by the place of the `panic` in the source; `runtime`
is a panic of the Go runtime itself. -/
inductive Failure where
  | config (msg : String)
  | connect (msg : String)
  | query (msg : String)
  | columns (err : String)
  | schema (msg : String)
  | read (err : ScanError)
  | retrieve (msg : String)
  | transport (err : String)
  | runtime (msg : String)
deriving DecidableEq, Repr

/-! ## Collaborators -/

/-- The part of `cli.Context` the source uses: `IsSet` and `String`. -/
structure Context where
  IsSet : String → Bool
  String : String → String

/-- A value of a result row: `none` is SQL NULL, `some s` a value whose
conversion to a Go string is `s`. -/
abbrev Cell := Option String

/-- What `sql.Rows` delivers: the result of `Columns()`, the rows that `Next()`
yields in order, and the error `Err()` reports once `Next()` has returned false. -/
structure Rows where
  Columns : Except String (List String)
  rows : List (List Cell)
  Err : Option String

/-- The database: the error of `sql.Open` for a connection string (if any) and
the result of `db.Query`. -/
structure Database where
  Open : String → Option String
  Query : String → String → Except String Rows

/-- The MailChimp client: `NewChimp(key, true).BatchSubscribe(req)`. -/
structure ChimpApi where
  BatchSubscribe : String → BatchSubscribe → Except String BatchSubscribeResponse

/-! ## `validateArgs` -/

/-- The three checks of `validateArgs`, in source order. -/
def validateArgs (c : Context) : Except Failure Unit :=
  if !c.IsSet "mailchimp-api-key" then
    .error (.config "Require mailchimp api key")
  else if !c.IsSet "mysql-connection-string" then
    .error (.config "Require mysql connection string")
  else if !c.IsSet "mailchimp-list-name" then
    .error (.config "Require mailchimp list name")
  else
    .ok ()

/-! ## `getEntriesToSync` -/

/-- Conversion of the value of column `index` into a `*string` destination by
`rows.Scan`: NULL is refused, with the index and the name of the column. -/
def convertAssign (cols : List String) (index : Nat) : Cell → Except ScanError String
  | some s => .ok s
  | none => .error (.convertNull index (cols.getD index ""))

/-- The call `rows.Scan(&toAdd.EmailAddress)`: one destination. -/
def scanEmail (cols : List String) (toAdd : Entry) (row : List Cell) :
    Except ScanError Entry :=
  match row with
  | [c] =>
    match convertAssign cols 0 c with
    | .ok email => .ok { toAdd with EmailAddress := email }
    | .error e => .error e
  | _ => .error (.arity row.length 1)

/-- The call `rows.Scan(&toAdd.FirstName, &toAdd.LastName, &toAdd.EmailAddress)`:
three destinations, converted left to right. -/
def scanFull (cols : List String) (toAdd : Entry) (row : List Cell) :
    Except ScanError Entry :=
  match row with
  | [a, b, c] =>
    match convertAssign cols 0 a with
    | .error e => .error e
    | .ok first =>
      match convertAssign cols 1 b with
      | .error e => .error e
      | .ok last =>
        match convertAssign cols 2 c with
        | .error e => .error e
        | .ok email =>
          .ok { toAdd with FirstName := first, LastName := last, EmailAddress := email }
  | _ => .error (.arity row.length 3)

/-- The loop `for rows.Next() { ... }` of `getEntriesToSync`, over the rows still
to come, with the slice `toReturn` built so far. -/
def fetchLoop (columns : Except String (List String)) :
    List (List Cell) → List Entry → Except Failure (List Entry)
  | [], toReturn => .ok toReturn
  | row :: rest, toReturn =>
    let toAdd : Entry := { FirstName := "", LastName := "", EmailAddress := "" }
    match columns with
    | .error rowError => .error (.columns rowError)
    | .ok cols =>
      if cols.length = 1 then
        match scanEmail cols toAdd row with
        | .error readError => .error (.read readError)
        | .ok toAdd => fetchLoop columns rest (toReturn ++ [toAdd])
      else if cols.length = 3 then
        match scanFull cols toAdd row with
        | .error readError => .error (.read readError)
        | .ok toAdd => fetchLoop columns rest (toReturn ++ [toAdd])
      else
        .error (.schema "Invalid number of columns returned")

/-- The deferred `db.Close()` of line 31, run when `getEntriesToSync` is left with
`result`.  The `defer` is placed before the check of `connectError`: after a failed
`sql.Open` the handle is nil, `Close` dereferences it, and the nil-pointer panic of
the runtime takes the place of the panic under way.  On an open handle `Close` changes
nothing of the result. -/
def deferredClose (dbIsNil : Bool) (result : Except Failure (List Entry)) :
    Except Failure (List Entry) :=
  if dbIsNil then
    .error (.runtime "runtime error: invalid memory address or nil pointer dereference")
  else
    result

/-- The function `getEntriesToSync`.  The deferred `rows.Close()` runs on rows that
were opened and has no part in the result. -/
def getEntriesToSync (db : Database) (connectionString query : String) :
    Except Failure (List Entry) :=
  match db.Open connectionString with
  | some _ =>
    deferredClose true (.error (.connect "Could not connect to MySQL database"))
  | none =>
    deferredClose false <|
      match db.Query connectionString query with
      | .error queryErr => .error (.query ("Error whilst executing query: " ++ queryErr))
      | .ok rows =>
        match fetchLoop rows.Columns rows.rows [] with
        | .error f => .error f
        | .ok toReturn =>
          match rows.Err with
          | some retrieveErr =>
            .error (.retrieve ("Error retrieving rows from database" ++ retrieveErr))
          | none => .ok toReturn

/-! ## `syncMailChimp` -/

/-- The body of the loop over the subscribers: the `ListsMember` built for one. -/
def newListsMember (subscriber : Entry) : ListsMember :=
  let toAdd : ListsMember := { Email := { Email := subscriber.EmailAddress }, MergeVars := none }
  if subscriber.FirstName ≠ "" ∧ subscriber.LastName ≠ "" then
    { toAdd with
      MergeVars :=
        some ((MergeVars.set [] "FNAME" subscriber.FirstName).set "LNAME" subscriber.LastName) }
  else
    toAdd

/-- The loop `for _, subscriber := range *subscribers`, appending to `Batch`. -/
def batchLoop : List Entry → BatchSubscribe → BatchSubscribe
  | [], req => req
  | subscriber :: rest, req =>
    batchLoop rest { req with Batch := req.Batch ++ [newListsMember subscriber] }

/-- The request `batchUpdateRequest` as it stands when it is submitted. -/
def batchUpdateRequest (mailChimpApiKey mailChimpList : String) (subscribers : List Entry) :
    BatchSubscribe :=
  batchLoop subscribers
    { ApiKey := mailChimpApiKey, ListId := mailChimpList, Batch := [],
      DoubleOptin := false, UpdateExisting := true }

/-- Formatting of an integer by the verb `%d`. -/
def fmtInt (n : Int) : String := toString n

/-- The loop over `response.Error`: one `Printf("%s\n", ...)` per entry. -/
def errorLines : List BatchSubscribeError → List String
  | [] => []
  | erroredAddress :: rest => (erroredAddress.Error ++ "\n") :: errorLines rest

/-- The reporting step: the texts written by the `Printf` calls of lines 117-121,
in order. -/
def report (response : BatchSubscribeResponse) : List String :=
  ("Added: " ++ fmtInt response.AddCount ++ ", Updated: " ++ fmtInt response.UpdateCount
      ++ ", Error: " ++ fmtInt response.ErrorCount ++ "\n")
    :: errorLines response.Error

/-- An observable effect of a run. -/
inductive Event where
  | fetch (connectionString query : String)
  | submit (req : BatchSubscribe)
  | print (text : String)
deriving DecidableEq, Repr

/-- A run: the effects in order and how it ended. -/
structure Run where
  trace : List Event
  outcome : Except Failure Unit

/-- The function `syncMailChimp`. -/
def syncMailChimp (c : Context) (db : Database) (api : ChimpApi) : Run :=
  match validateArgs c with
  | .error f => { trace := [], outcome := .error f }
  | .ok () =>
    let mysqlConnectionString := c.String "mysql-connection-string"
    let mysqlQuery := c.String "mysql-query"
    let mailChimpApiKey := c.String "mailchimp-api-key"
    let mailChimpList := c.String "mailchimp-list-name"
    match getEntriesToSync db mysqlConnectionString mysqlQuery with
    | .error f => { trace := [.fetch mysqlConnectionString mysqlQuery], outcome := .error f }
    | .ok subscribers =>
      let fetched : List Event :=
        [.fetch mysqlConnectionString mysqlQuery,
         .print ("Synchronising " ++ fmtInt subscribers.length ++ " entries\n")]
      let req := batchUpdateRequest mailChimpApiKey mailChimpList subscribers
      match api.BatchSubscribe mailChimpApiKey req with
      | .error requestErr =>
        { trace := fetched ++ [.submit req], outcome := .error (.transport requestErr) }
      | .ok response =>
        { trace := fetched ++ [.submit req] ++ (report response).map .print,
          outcome := .ok () }

/-- The text of a print event. -/
def Event.printed : Event → Option String
  | .print text => some text
  | _ => none

/-- The request of a submit event. -/
def Event.request : Event → Option BatchSubscribe
  | .submit req => some req
  | _ => none

/-- The connection string and query of a fetch event. -/
def Event.fetched : Event → Option (String × String)
  | .fetch connectionString query => some (connectionString, query)
  | _ => none

/-- The texts printed during a run, in order. -/
def Run.prints (r : Run) : List String := r.trace.filterMap Event.printed

/-- The requests submitted during a run, in order. -/
def Run.submitted (r : Run) : List BatchSubscribe := r.trace.filterMap Event.request

/-- The database fetches started during a run, in order. -/
def Run.fetches (r : Run) : List (String × String) := r.trace.filterMap Event.fetched

/-- The complete text on standard output after a run. -/
def Run.stdout (r : Run) : String := String.join r.prints

/-- The complete text written by the reporting step. -/
def reportText (response : BatchSubscribeResponse) : String := String.join (report response)

/-- The lines of the characters still to read, `cur` being the part of the current
line read so far: a line ends at each newline; characters after the last newline
form a last line if there are any. -/
def linesFrom : List Char → List Char → List String
  | cur, [] => if cur = [] then [] else [String.mk cur]
  | cur, c :: rest =>
    if c = '\n' then String.mk cur :: linesFrom [] rest else linesFrom (cur ++ [c]) rest

/-- The lines of a text, without their newlines. -/
def textLines (text : String) : List String := linesFrom [] text.data

/-- A text that holds no newline. -/
def NoNewline (text : String) : Prop := ∀ ch ∈ text.data, ch ≠ '\n'

instance (text : String) : Decidable (NoNewline text) := by
  unfold NoNewline
  infer_instance

/-- How a decoded record relates to the row it was read from, by column count. -/
def DecodedFrom (cols : List String) (row : List Cell) (e : Entry) : Prop :=
  (cols.length = 1 → row = [some e.EmailAddress] ∧ e.FirstName = "" ∧ e.LastName = "") ∧
  (cols.length = 3 → row = [some e.FirstName, some e.LastName, some e.EmailAddress])

/-! ## Concrete inputs -/

/-- A database whose connection opens and whose every query yields `rows`. -/
def dbOf (rows : Rows) : Database :=
  { Open := fun _ => none, Query := fun _ _ => .ok rows }

/-- A context in which the named flags are set and every flag reads as `value name`. -/
def ctxOf (set : List String) (value : String → String) : Context :=
  { IsSet := fun name => decide (name ∈ set), String := value }

/-- A client that answers every submission with `response`. -/
def apiOf (response : BatchSubscribeResponse) : ChimpApi :=
  { BatchSubscribe := fun _ _ => .ok response }

/-- A client whose every submission fails with `err`. -/
def apiDown (err : String) : ChimpApi :=
  { BatchSubscribe := fun _ _ => .error err }

/-- The three required flags. -/
def requiredFlags : List String :=
  ["mailchimp-api-key", "mysql-connection-string", "mailchimp-list-name"]

/-- A query result with two columns and no row. -/
def twoColumnsNoRow : Rows :=
  { Columns := .ok ["id", "email"], rows := [], Err := none }

/-- A query result with two columns and one row. -/
def twoColumnsOneRow : Rows :=
  { Columns := .ok ["id", "email"], rows := [[some "7", some "a@x.com"]], Err := none }

/-- A one-column result with two email addresses. -/
def emailsOnly : Rows :=
  { Columns := .ok ["email"], rows := [[some "jane@x.com"], [some "bob@x.com"]], Err := none }

/-- The three-column result with the rows of Jane Doe and of an unnamed Bob. -/
def janeAndBob : Rows :=
  { Columns := .ok ["firstname", "lastname", "email"],
    rows := [[some "Jane", some "Doe", some "jane@x.com"], [some "", some "", some "bob@x.com"]],
    Err := none }

/-- A context in which the three required flags are set (and `mysql-query` is not):
the API key reads "key", the list name "list", every other flag as its own name. -/
def fullCtx : Context :=
  ctxOf requiredFlags fun name =>
    if name = "mailchimp-api-key" then "key"
    else if name = "mailchimp-list-name" then "list"
    else name

/-- The response with two added, one updated and one failed subscriber. -/
def sampleResponse : BatchSubscribeResponse :=
  { AddCount := 2, UpdateCount := 1, ErrorCount := 1,
    Error := [{ Emails := { Email := "x@y.com" }, Code := 0, Error := "invalid" }] }

/-- A response whose one error message holds a newline. -/
def newlineResponse : BatchSubscribeResponse :=
  { AddCount := 0, UpdateCount := 0, ErrorCount := 1,
    Error := [{ Emails := { Email := "x@y.com" }, Code := 0, Error := "two\nlines" }] }

/-- The response to a batch in which nothing was added, updated or refused. -/
def emptyResponse : BatchSubscribeResponse :=
  { AddCount := 0, UpdateCount := 0, ErrorCount := 0, Error := [] }

/-! ## Lemmas on the loops -/

theorem batchLoop_eq (subscribers : List Entry) (req : BatchSubscribe) :
    batchLoop subscribers req =
      { req with Batch := req.Batch ++ subscribers.map newListsMember } := by
  induction subscribers generalizing req with
  | nil => simp [batchLoop]
  | cons s rest ih => simp [batchLoop, ih]

theorem batchUpdateRequest_eq (key list : String) (subscribers : List Entry) :
    batchUpdateRequest key list subscribers =
      { ApiKey := key, ListId := list, Batch := subscribers.map newListsMember,
        DoubleOptin := false, UpdateExisting := true } := by
  simp [batchUpdateRequest, batchLoop_eq]

theorem errorLines_eq (errors : List BatchSubscribeError) :
    errorLines errors = errors.map fun e => e.Error ++ "\n" := by
  induction errors with
  | nil => rfl
  | cons e rest ih => simp [errorLines, ih]

theorem newListsMember_email (e : Entry) : (newListsMember e).Email.Email = e.EmailAddress := by
  unfold newListsMember
  split <;> rfl

theorem validateArgs_ok_iff (c : Context) :
    validateArgs c = .ok () ↔
      (c.IsSet "mailchimp-api-key" = true ∧ c.IsSet "mysql-connection-string" = true ∧
        c.IsSet "mailchimp-list-name" = true) := by
  unfold validateArgs
  cases c.IsSet "mailchimp-api-key" <;> cases c.IsSet "mysql-connection-string" <;>
    cases c.IsSet "mailchimp-list-name" <;> simp

theorem validateArgs_error_config (c : Context) (f : Failure) (h : validateArgs c = .error f) :
    ∃ msg, f = .config msg := by
  unfold validateArgs at h
  cases h1 : c.IsSet "mailchimp-api-key" <;> cases h2 : c.IsSet "mysql-connection-string" <;>
    cases h3 : c.IsSet "mailchimp-list-name" <;> simp [h1, h2, h3] at h <;>
    exact ⟨_, h.symm⟩

theorem getEntriesToSync_open_failed (db : Database) (connectionString query err : String)
    (hopen : db.Open connectionString = some err) :
    getEntriesToSync db connectionString query =
      .error (.runtime "runtime error: invalid memory address or nil pointer dereference") := by
  simp [getEntriesToSync, deferredClose, hopen]

theorem fetchLoop_nil (columns : Except String (List String)) (acc : List Entry) :
    fetchLoop columns [] acc = .ok acc := by
  simp [fetchLoop]

theorem fetchLoop_schema (cols : List String) (h1 : cols.length ≠ 1) (h3 : cols.length ≠ 3)
    (row : List Cell) (rest : List (List Cell)) (acc : List Entry) :
    fetchLoop (.ok cols) (row :: rest) acc =
      .error (.schema "Invalid number of columns returned") := by
  simp [fetchLoop, h1, h3]

theorem fetchLoop_decodes (cols : List String) (harity : cols.length = 1 ∨ cols.length = 3) :
    ∀ (rows : List (List Cell)) (acc : List Entry),
      (∀ row ∈ rows, row.length = cols.length ∧ ∀ cell ∈ row, cell ≠ none) →
      ∃ out, fetchLoop (.ok cols) rows acc = .ok (acc ++ out) ∧
        List.Forall₂ (DecodedFrom cols) rows out := by
  intro rows
  induction rows with
  | nil =>
    intro acc _
    exact ⟨[], by simp [fetchLoop], List.Forall₂.nil⟩
  | cons row rest ih =>
    intro acc h
    have hrow := h row (List.mem_cons_self _ _)
    have hrest : ∀ r ∈ rest, r.length = cols.length ∧ ∀ cell ∈ r, cell ≠ none :=
      fun r hr => h r (List.mem_cons_of_mem _ hr)
    rcases harity with h1 | h3
    · -- one column: the row is a single non-NULL value
      obtain ⟨hlen, hcells⟩ := hrow
      rw [h1] at hlen
      match row, hlen, hcells with
      | [none], _, hcells => exact absurd rfl (hcells none (by simp))
      | [some v], _, _ =>
        obtain ⟨out, hout, hrel⟩ := ih (acc ++ [⟨"", "", v⟩]) hrest
        refine ⟨⟨"", "", v⟩ :: out, ?_, List.Forall₂.cons ?_ hrel⟩
        · simp [fetchLoop, h1, scanEmail, convertAssign, hout]
        · simp [DecodedFrom, h1]
    · obtain ⟨hlen, hcells⟩ := hrow
      rw [h3] at hlen
      match row, hlen, hcells with
      | [some a, some b, some c], _, _ =>
        obtain ⟨out, hout, hrel⟩ := ih (acc ++ [⟨a, b, c⟩]) hrest
        refine ⟨⟨a, b, c⟩ :: out, ?_, List.Forall₂.cons ?_ hrel⟩
        · simp [fetchLoop, h3, scanFull, convertAssign, hout]
        · simp [DecodedFrom, h3]
      | [none, _, _], _, hcells => exact absurd rfl (hcells none (by simp))
      | [some _, none, _], _, hcells => exact absurd rfl (hcells none (by simp))
      | [some _, some _, none], _, hcells => exact absurd rfl (hcells none (by simp))

/-! ## The four ways a run can go -/

theorem syncMailChimp_config (c : Context) (db : Database) (api : ChimpApi) (f : Failure)
    (hv : validateArgs c = .error f) :
    syncMailChimp c db api = { trace := [], outcome := .error f } := by
  simp [syncMailChimp, hv]

theorem syncMailChimp_fetch_failed (c : Context) (db : Database) (api : ChimpApi) (f : Failure)
    (hv : validateArgs c = .ok ())
    (hf : getEntriesToSync db (c.String "mysql-connection-string") (c.String "mysql-query") =
      .error f) :
    syncMailChimp c db api =
      { trace := [.fetch (c.String "mysql-connection-string") (c.String "mysql-query")],
        outcome := .error f } := by
  simp [syncMailChimp, hv, hf]

theorem syncMailChimp_transport (c : Context) (db : Database) (api : ChimpApi)
    (subscribers : List Entry) (err : String)
    (hv : validateArgs c = .ok ())
    (hf : getEntriesToSync db (c.String "mysql-connection-string") (c.String "mysql-query") =
      .ok subscribers)
    (hs : api.BatchSubscribe (c.String "mailchimp-api-key")
      (batchUpdateRequest (c.String "mailchimp-api-key") (c.String "mailchimp-list-name")
        subscribers) = .error err) :
    syncMailChimp c db api =
      { trace :=
          [.fetch (c.String "mysql-connection-string") (c.String "mysql-query"),
           .print ("Synchronising " ++ fmtInt subscribers.length ++ " entries\n"),
           .submit (batchUpdateRequest (c.String "mailchimp-api-key")
             (c.String "mailchimp-list-name") subscribers)],
        outcome := .error (.transport err) } := by
  simp [syncMailChimp, hv, hf, hs]

theorem syncMailChimp_done (c : Context) (db : Database) (api : ChimpApi)
    (subscribers : List Entry) (response : BatchSubscribeResponse)
    (hv : validateArgs c = .ok ())
    (hf : getEntriesToSync db (c.String "mysql-connection-string") (c.String "mysql-query") =
      .ok subscribers)
    (hs : api.BatchSubscribe (c.String "mailchimp-api-key")
      (batchUpdateRequest (c.String "mailchimp-api-key") (c.String "mailchimp-list-name")
        subscribers) = .ok response) :
    syncMailChimp c db api =
      { trace :=
          [.fetch (c.String "mysql-connection-string") (c.String "mysql-query"),
           .print ("Synchronising " ++ fmtInt subscribers.length ++ " entries\n"),
           .submit (batchUpdateRequest (c.String "mailchimp-api-key")
             (c.String "mailchimp-list-name") subscribers)]
          ++ (report response).map .print,
        outcome := .ok () } := by
  simp [syncMailChimp, hv, hf, hs]

theorem printed_of_prints (texts : List String) :
    (texts.map Event.print).filterMap Event.printed = texts := by
  induction texts with
  | nil => rfl
  | cons t rest ih => simp [List.filterMap_cons, Event.printed, ih]

theorem request_of_prints (texts : List String) :
    (texts.map Event.print).filterMap Event.request = [] := by
  induction texts with
  | nil => rfl
  | cons t rest ih => simp [List.filterMap_cons, Event.request, ih]

theorem syncMailChimp_cases (c : Context) (db : Database) (api : ChimpApi) :
    (∃ f, validateArgs c = .error f ∧
      syncMailChimp c db api = { trace := [], outcome := .error f }) ∨
    (∃ f, validateArgs c = .ok () ∧
      getEntriesToSync db (c.String "mysql-connection-string") (c.String "mysql-query") =
        .error f ∧
      syncMailChimp c db api =
        { trace := [.fetch (c.String "mysql-connection-string") (c.String "mysql-query")],
          outcome := .error f }) ∨
    (∃ subscribers err, validateArgs c = .ok () ∧
      getEntriesToSync db (c.String "mysql-connection-string") (c.String "mysql-query") =
        .ok subscribers ∧
      api.BatchSubscribe (c.String "mailchimp-api-key")
        (batchUpdateRequest (c.String "mailchimp-api-key") (c.String "mailchimp-list-name")
          subscribers) = .error err ∧
      syncMailChimp c db api =
        { trace :=
            [.fetch (c.String "mysql-connection-string") (c.String "mysql-query"),
             .print ("Synchronising " ++ fmtInt subscribers.length ++ " entries\n"),
             .submit (batchUpdateRequest (c.String "mailchimp-api-key")
               (c.String "mailchimp-list-name") subscribers)],
          outcome := .error (.transport err) }) ∨
    (∃ subscribers response, validateArgs c = .ok () ∧
      getEntriesToSync db (c.String "mysql-connection-string") (c.String "mysql-query") =
        .ok subscribers ∧
      api.BatchSubscribe (c.String "mailchimp-api-key")
        (batchUpdateRequest (c.String "mailchimp-api-key") (c.String "mailchimp-list-name")
          subscribers) = .ok response ∧
      syncMailChimp c db api =
        { trace :=
            [.fetch (c.String "mysql-connection-string") (c.String "mysql-query"),
             .print ("Synchronising " ++ fmtInt subscribers.length ++ " entries\n"),
             .submit (batchUpdateRequest (c.String "mailchimp-api-key")
               (c.String "mailchimp-list-name") subscribers)]
            ++ (report response).map .print,
          outcome := .ok () }) := by
  cases hv : validateArgs c with
  | error f => exact Or.inl ⟨f, rfl, syncMailChimp_config c db api f hv⟩
  | ok u =>
    cases hf : getEntriesToSync db (c.String "mysql-connection-string")
        (c.String "mysql-query") with
    | error f => exact Or.inr (Or.inl ⟨f, rfl, rfl, syncMailChimp_fetch_failed c db api f hv hf⟩)
    | ok subscribers =>
      cases hs : api.BatchSubscribe (c.String "mailchimp-api-key")
          (batchUpdateRequest (c.String "mailchimp-api-key") (c.String "mailchimp-list-name")
            subscribers) with
      | error err =>
        exact Or.inr (Or.inr (Or.inl
          ⟨subscribers, err, rfl, rfl, hs, syncMailChimp_transport c db api subscribers err hv hf hs⟩))
      | ok response =>
        exact Or.inr (Or.inr (Or.inr
          ⟨subscribers, response, rfl, rfl, hs,
            syncMailChimp_done c db api subscribers response hv hf hs⟩))

/-! ## Claims on the batch request -/

/-- C1: the payload built for a record in `syncMailChimp` carries merge fields if and
only if both `FirstName` and `LastName` are non-empty; when it does they are exactly
`FNAME = FirstName` and `LNAME = LastName`; a record with an empty name (so also one
with exactly one name) gets none; Jane Doe gets both fields and the unnamed Bob none.
The payloads of the request are those of the records, one for one. -/
theorem mergeVars_iff_both_names (key list : String) (subscribers : List Entry) :
    (batchUpdateRequest key list subscribers).Batch = subscribers.map newListsMember ∧
    (∀ e : Entry,
      ((newListsMember e).MergeVars.isSome = true ↔ (e.FirstName ≠ "" ∧ e.LastName ≠ "")) ∧
      ((e.FirstName ≠ "" ∧ e.LastName ≠ "") →
        (newListsMember e).MergeVars = some [("FNAME", e.FirstName), ("LNAME", e.LastName)]) ∧
      ((e.FirstName = "" ∨ e.LastName = "") → (newListsMember e).MergeVars = none)) ∧
    newListsMember ⟨"Jane", "Doe", "jane@x.com"⟩ =
      ⟨⟨"jane@x.com"⟩, some [("FNAME", "Jane"), ("LNAME", "Doe")]⟩ ∧
    newListsMember ⟨"", "", "bob@x.com"⟩ = ⟨⟨"bob@x.com"⟩, none⟩ := by
  refine ⟨by rw [batchUpdateRequest_eq], ?_, by decide, by decide⟩
  intro e
  by_cases h : e.FirstName ≠ "" ∧ e.LastName ≠ ""
  · have hm : (newListsMember e).MergeVars =
        some [("FNAME", e.FirstName), ("LNAME", e.LastName)] := by
      simp [newListsMember, h, MergeVars.set]
    refine ⟨by simp [hm, h], fun _ => hm, ?_⟩
    intro h0
    rcases h0 with h0 | h0
    · exact absurd h0 h.1
    · exact absurd h0 h.2
  · have hm : (newListsMember e).MergeVars = none := by
      simp only [newListsMember, if_neg h]
    refine ⟨by simp [hm, h], fun h0 => absurd h0 h, fun _ => hm⟩

/-- C2: for N records the request built in `syncMailChimp` has exactly N payloads, and
at every index the payload carries the email address of the record at that index. -/
theorem batch_keeps_order (key list : String) (subscribers : List Entry) :
    (batchUpdateRequest key list subscribers).Batch.length = subscribers.length ∧
    ∀ i : Nat,
      ((batchUpdateRequest key list subscribers).Batch[i]?).map (fun p => p.Email.Email) =
        (subscribers[i]?).map (fun e => e.EmailAddress) := by
  rw [batchUpdateRequest_eq]
  refine ⟨by simp, ?_⟩
  intro i
  simp only [List.getElem?_map, Option.map_map]
  congr 1
  funext e
  exact newListsMember_email e

/-- C5: whatever the records, the list id and the API key, the request built in
`syncMailChimp` has `UpdateExisting = true`, `DoubleOptin = false` and the given list
id; and every request a run submits has these flags and the configured list name. -/
theorem fixed_policy_flags (key list : String) (subscribers : List Entry)
    (c : Context) (db : Database) (api : ChimpApi) :
    (batchUpdateRequest key list subscribers).UpdateExisting = true ∧
    (batchUpdateRequest key list subscribers).DoubleOptin = false ∧
    (batchUpdateRequest key list subscribers).ListId = list ∧
    ∀ req ∈ (syncMailChimp c db api).submitted,
      req.UpdateExisting = true ∧ req.DoubleOptin = false ∧
        req.ListId = c.String "mailchimp-list-name" := by
  refine ⟨by rw [batchUpdateRequest_eq], by rw [batchUpdateRequest_eq],
    by rw [batchUpdateRequest_eq], ?_⟩
  intro req hreq
  rcases syncMailChimp_cases c db api with ⟨f, _, hrun⟩ | ⟨f, _, _, hrun⟩ |
    ⟨subs, err, _, _, _, hrun⟩ | ⟨subs, resp, _, _, _, hrun⟩ <;>
    rw [hrun] at hreq <;>
    simp only [Run.submitted, List.filterMap_append, request_of_prints] at hreq <;>
    simp [List.filterMap_cons, Event.request] at hreq
  all_goals
    subst hreq
    simp [batchUpdateRequest_eq]

/-! ## Claims on the fetch -/

/-- C3 (as stated, refuted): a result with two columns and no row is returned as the
empty sequence of records; no schema error is raised. -/
theorem schema_check_skipped_without_rows :
    twoColumnsNoRow.Columns = .ok ["id", "email"] ∧ twoColumnsNoRow.rows = [] ∧
    getEntriesToSync (dbOf twoColumnsNoRow) "dsn" "SELECT id, email FROM members" = .ok [] ∧
    getEntriesToSync (dbOf twoColumnsNoRow) "dsn" "SELECT id, email FROM members" ≠
      .error (.schema "Invalid number of columns returned") := by
  refine ⟨rfl, rfl, rfl, ?_⟩
  intro h
  cases h

/-- C3 (amended): for a query result whose column count is neither 1 nor 3,
`getEntriesToSync` fails with "Invalid number of columns returned" and returns no
records as soon as the result has at least one row; with no row (and no retrieval
error) it returns the empty sequence of records. -/
theorem schema_error_on_first_row (db : Database) (connectionString query : String)
    (rows : Rows) (cols : List String)
    (hopen : db.Open connectionString = none)
    (hquery : db.Query connectionString query = .ok rows)
    (hcols : rows.Columns = .ok cols)
    (h1 : cols.length ≠ 1) (h3 : cols.length ≠ 3) :
    (rows.rows ≠ [] →
      getEntriesToSync db connectionString query =
        .error (.schema "Invalid number of columns returned")) ∧
    (rows.rows = [] → rows.Err = none →
      getEntriesToSync db connectionString query = .ok []) := by
  constructor
  · intro hne
    cases hr : rows.rows with
    | nil => exact absurd hr hne
    | cons row rest =>
      simp [getEntriesToSync, deferredClose, hopen, hquery, hcols, hr, fetchLoop_schema cols h1 h3]
  · intro hnil herr
    simp [getEntriesToSync, deferredClose, hopen, hquery, hnil, herr, fetchLoop_nil]

/-- Witness of C3 (amended): two columns and one row give the schema error. -/
theorem schema_error_on_first_row_witness :
    twoColumnsOneRow.Columns = .ok ["id", "email"] ∧ twoColumnsOneRow.rows ≠ [] ∧
    getEntriesToSync (dbOf twoColumnsOneRow) "dsn" "SELECT id, email FROM members" =
      .error (.schema "Invalid number of columns returned") :=
  ⟨rfl, by decide,
    (schema_error_on_first_row (dbOf twoColumnsOneRow) "dsn" "SELECT id, email FROM members"
      twoColumnsOneRow ["id", "email"] rfl rfl rfl (by decide) (by decide)).1 (by decide)⟩

/-- C4: for a query result with exactly 1 or exactly 3 columns in which every row
decodes (as many values as columns, none of them NULL, no retrieval error),
`getEntriesToSync` succeeds with exactly one record per row, in row order: with one
column the record has the value of the row as `EmailAddress` and empty names, with three
columns the record is (`FirstName`, `LastName`, `EmailAddress`) = the columns in order. -/
theorem fetch_one_record_per_row (db : Database) (connectionString query : String)
    (rows : Rows) (cols : List String)
    (hopen : db.Open connectionString = none)
    (hquery : db.Query connectionString query = .ok rows)
    (hcols : rows.Columns = .ok cols)
    (harity : cols.length = 1 ∨ cols.length = 3)
    (hdecode : ∀ row ∈ rows.rows, row.length = cols.length ∧ ∀ cell ∈ row, cell ≠ none)
    (herr : rows.Err = none) :
    ∃ entries, getEntriesToSync db connectionString query = .ok entries ∧
      entries.length = rows.rows.length ∧
      List.Forall₂
        (fun row e =>
          (cols.length = 1 →
            row = [some e.EmailAddress] ∧ e.FirstName = "" ∧ e.LastName = "") ∧
          (cols.length = 3 →
            row = [some e.FirstName, some e.LastName, some e.EmailAddress]))
        rows.rows entries := by
  obtain ⟨out, hout, hrel⟩ := fetchLoop_decodes cols harity rows.rows [] hdecode
  refine ⟨out, ?_, hrel.length_eq.symm, hrel⟩
  simp [getEntriesToSync, deferredClose, hopen, hquery, hcols, hout, herr]

/-- Witness of C4: the rows of Jane Doe and of the unnamed Bob, with three columns and
with the email address alone. -/
theorem fetch_one_record_per_row_witness :
    getEntriesToSync (dbOf janeAndBob) "dsn" "SELECT firstname, lastname, email FROM members" =
      .ok [⟨"Jane", "Doe", "jane@x.com"⟩, ⟨"", "", "bob@x.com"⟩] ∧
    getEntriesToSync (dbOf emailsOnly) "dsn" "SELECT email FROM members" =
      .ok [⟨"", "", "jane@x.com"⟩, ⟨"", "", "bob@x.com"⟩] ∧
    ∃ entries,
      getEntriesToSync (dbOf janeAndBob) "dsn" "SELECT firstname, lastname, email FROM members" =
        .ok entries ∧
      entries.length = janeAndBob.rows.length ∧
      List.Forall₂
        (fun row e =>
          ((["firstname", "lastname", "email"] : List String).length = 1 →
            row = [some e.EmailAddress] ∧ e.FirstName = "" ∧ e.LastName = "") ∧
          ((["firstname", "lastname", "email"] : List String).length = 3 →
            row = [some e.FirstName, some e.LastName, some e.EmailAddress]))
        janeAndBob.rows entries :=
  ⟨rfl, rfl,
    fetch_one_record_per_row (dbOf janeAndBob) "dsn"
      "SELECT firstname, lastname, email FROM members" janeAndBob
      ["firstname", "lastname", "email"] rfl rfl rfl (Or.inr rfl) (by decide) rfl⟩

/-! ## Claims on the report and on the run as a whole -/

theorem fmtInt_natCast (n : Nat) : fmtInt (n : Int) = toString n := rfl

theorem join_cons (a : String) (l : List String) :
    String.join (a :: l) = a ++ String.join l := by
  apply String.ext
  simp [String.join_eq]

/-! ## Lines of a text -/

theorem ite_ne_newline {p : Prop} [Decidable p] (a b : Char) (ha : a ≠ '\n')
    (hb : b ≠ '\n') : (if p then a else b) ≠ '\n' := by
  split <;> assumption

theorem digitChar_ne_newline (n : Nat) : Nat.digitChar n ≠ '\n' := by
  unfold Nat.digitChar
  repeat refine ite_ne_newline _ _ (by decide) ?_
  decide

theorem toDigitsCore_ne_newline (base : Nat) :
    ∀ (fuel n : Nat) (ds : List Char), (∀ ch ∈ ds, ch ≠ '\n') →
      ∀ ch ∈ Nat.toDigitsCore base fuel n ds, ch ≠ '\n' := by
  intro fuel
  induction fuel with
  | zero =>
    intro n ds hds
    simpa [Nat.toDigitsCore] using hds
  | succ fuel ih =>
    intro n ds hds
    have hcons : ∀ ch ∈ Nat.digitChar (n % base) :: ds, ch ≠ '\n' := by
      intro ch hch
      rcases List.mem_cons.mp hch with rfl | hch
      · exact digitChar_ne_newline _
      · exact hds ch hch
    unfold Nat.toDigitsCore
    by_cases h0 : n / base = 0
    · simpa [h0] using hcons
    · simpa [h0] using ih (n / base) _ hcons

theorem natRepr_noNewline (n : Nat) : NoNewline (toString n) := by
  intro ch hch
  have hmem : ch ∈ Nat.toDigits 10 n := by
    simpa [ToString.toString, Nat.repr, List.asString] using hch
  exact toDigitsCore_ne_newline 10 (n + 1) n [] (by simp) ch hmem

theorem noNewline_append (a b : String) (ha : NoNewline a) (hb : NoNewline b) :
    NoNewline (a ++ b) := by
  intro ch hch
  rw [String.data_append] at hch
  rcases List.mem_append.mp hch with h | h
  · exact ha ch h
  · exact hb ch h

theorem fmtInt_noNewline (n : Int) : NoNewline (fmtInt n) := by
  cases n with
  | ofNat m => exact natRepr_noNewline m
  | negSucc m =>
    exact noNewline_append "-" (toString (Nat.succ m)) (by decide) (natRepr_noNewline _)

theorem linesFrom_line (m : List Char) (hm : ∀ ch ∈ m, ch ≠ '\n') :
    ∀ (cur rest : List Char),
      linesFrom cur (m ++ '\n' :: rest) = String.mk (cur ++ m) :: linesFrom [] rest := by
  induction m with
  | nil =>
    intro cur rest
    simp [linesFrom]
  | cons c m ih =>
    intro cur rest
    have hc : c ≠ '\n' := hm c (List.mem_cons_self _ _)
    have hrest : ∀ ch ∈ m, ch ≠ '\n' := fun ch h => hm ch (List.mem_cons_of_mem _ h)
    simp [linesFrom, hc, ih hrest]

theorem textLines_line (line rest : String) (h : NoNewline line) :
    textLines (line ++ "\n" ++ rest) = line :: textLines rest := by
  have hdata : (line ++ "\n" ++ rest).data = line.data ++ '\n' :: rest.data := by
    simp [String.data_append]
  rw [textLines, hdata, linesFrom_line line.data h [] rest.data]
  simp [textLines]

theorem textLines_empty : textLines "" = [] := by
  simp [textLines, linesFrom]

theorem textLines_join (lines : List String) (h : ∀ line ∈ lines, NoNewline line) :
    textLines (String.join (lines.map fun line => line ++ "\n")) = lines := by
  induction lines with
  | nil => simpa [String.join] using textLines_empty
  | cons line rest ih =>
    have hl : NoNewline line := h line (List.mem_cons_self _ _)
    have hr : ∀ l ∈ rest, NoNewline l := fun l hl => h l (List.mem_cons_of_mem _ hl)
    rw [List.map_cons, join_cons, textLines_line line _ hl, ih hr]

theorem join_lines_cons (line : String) (lines : List String) :
    String.join ((line ++ "\n") :: lines.map fun l => l ++ "\n") =
      String.join ((line :: lines).map fun l => l ++ "\n") := rfl

/-- The summary text of a response, without its newline. -/
theorem summary_noNewline (a u e : Int) :
    NoNewline ("Added: " ++ fmtInt a ++ ", Updated: " ++ fmtInt u ++ ", Error: " ++ fmtInt e) := by
  refine noNewline_append _ _ (noNewline_append _ _ (noNewline_append _ _
    (noNewline_append _ _ (noNewline_append _ _ (by decide) (fmtInt_noNewline a)) (by decide))
    (fmtInt_noNewline u)) (by decide)) (fmtInt_noNewline e)

theorem report_eq (response : BatchSubscribeResponse) :
    report response =
      ("Added: " ++ toString response.AddCount ++ ", Updated: " ++
          toString response.UpdateCount ++ ", Error: " ++ toString response.ErrorCount ++ "\n")
        :: response.Error.map (fun e => e.Error ++ "\n") := by
  simp [report, errorLines_eq, fmtInt]

theorem report_eq_lines (response : BatchSubscribeResponse) :
    report response =
      (("Added: " ++ toString response.AddCount ++ ", Updated: " ++
          toString response.UpdateCount ++ ", Error: " ++ toString response.ErrorCount)
        :: response.Error.map fun e => e.Error).map fun line => line ++ "\n" := by
  simp [report, errorLines_eq, fmtInt, Function.comp_def]

theorem textLines_report (response : BatchSubscribeResponse)
    (h : ∀ e ∈ response.Error, NoNewline e.Error) :
    textLines (reportText response) =
      ("Added: " ++ toString response.AddCount ++ ", Updated: " ++
          toString response.UpdateCount ++ ", Error: " ++ toString response.ErrorCount)
        :: response.Error.map fun e => e.Error := by
  rw [reportText, report_eq_lines]
  apply textLines_join
  intro line hline
  rcases List.mem_cons.mp hline with rfl | hline
  · exact summary_noNewline _ _ _
  · obtain ⟨e, he, rfl⟩ := List.mem_map.mp hline
    exact h e he

theorem textLines_stdout (n : Nat) (response : BatchSubscribeResponse)
    (h : ∀ e ∈ response.Error, NoNewline e.Error) :
    textLines (String.join (("Synchronising " ++ toString n ++ " entries\n") :: report response)) =
      ("Synchronising " ++ toString n ++ " entries") ::
        ("Added: " ++ toString response.AddCount ++ ", Updated: " ++
          toString response.UpdateCount ++ ", Error: " ++ toString response.ErrorCount)
        :: response.Error.map fun e => e.Error := by
  have hfirst : NoNewline ("Synchronising " ++ toString n ++ " entries") :=
    noNewline_append _ _ (noNewline_append _ _ (by decide) (natRepr_noNewline n)) (by decide)
  have hsplit : String.join (("Synchronising " ++ toString n ++ " entries\n") :: report response) =
      "Synchronising " ++ toString n ++ " entries" ++ "\n" ++ reportText response := by
    rw [join_cons, reportText]
    simp [String.append_assoc]
  rw [hsplit, textLines_line _ _ hfirst, textLines_report response h]

/-- C6 (as stated, refuted): for a response whose one error message is "two", a
newline, "lines", the reporting step writes three lines for the one entry, and none
of them is the message. -/
theorem report_splits_message_with_newline :
    newlineResponse.Error.map (fun e => e.Error) = ["two\nlines"] ∧
    reportText newlineResponse = "Added: 0, Updated: 0, Error: 1\ntwo\nlines\n" ∧
    textLines (reportText newlineResponse) =
      ["Added: 0, Updated: 0, Error: 1", "two", "lines"] ∧
    (textLines (reportText newlineResponse)).length ≠ 1 + newlineResponse.Error.length ∧
    "two\nlines" ∉ textLines (reportText newlineResponse) := by
  refine ⟨by decide, by decide, by decide, by decide, by decide⟩

/-- C6 (amended): for every batch response the reporting step writes, in order, the
summary "Added: a, Updated: u, Error: e" with the three counts, ended by a newline,
then for each entry of the error list, in list order, the message of that entry ended
by a newline, and nothing else; when no message holds a newline the text is exactly
the summary line followed by one line per entry, in list order, each being the message
of its entry; for the response with counts 2, 1, 1 and the one error "invalid" these
are the line with 2, 1, 1 and the line "invalid". -/
theorem report_lines (response : BatchSubscribeResponse) :
    report response =
      ("Added: " ++ toString response.AddCount ++ ", Updated: " ++
          toString response.UpdateCount ++ ", Error: " ++ toString response.ErrorCount ++ "\n")
        :: response.Error.map (fun e => e.Error ++ "\n") ∧
    reportText response =
      "Added: " ++ toString response.AddCount ++ ", Updated: " ++
          toString response.UpdateCount ++ ", Error: " ++ toString response.ErrorCount ++ "\n" ++
        String.join (response.Error.map fun e => e.Error ++ "\n") ∧
    ((∀ e ∈ response.Error, NoNewline e.Error) →
      textLines (reportText response) =
        ("Added: " ++ toString response.AddCount ++ ", Updated: " ++
            toString response.UpdateCount ++ ", Error: " ++ toString response.ErrorCount)
          :: response.Error.map (fun e => e.Error)) ∧
    textLines (reportText sampleResponse) = ["Added: 2, Updated: 1, Error: 1", "invalid"] := by
  refine ⟨report_eq response, ?_, textLines_report response, by decide⟩
  rw [reportText, report_eq, join_cons]

/-- Witness of C6 (amended): the sample response, whose message "invalid" holds no
newline, is rendered as the summary line and the line "invalid". -/
theorem report_lines_witness :
    (∀ e ∈ sampleResponse.Error, NoNewline e.Error) ∧
    textLines (reportText sampleResponse) =
      ("Added: " ++ toString sampleResponse.AddCount ++ ", Updated: " ++
          toString sampleResponse.UpdateCount ++ ", Error: " ++
          toString sampleResponse.ErrorCount)
        :: sampleResponse.Error.map (fun e => e.Error) :=
  ⟨by decide, (report_lines sampleResponse).2.2.1 (by decide)⟩

/-- C7: `validateArgs` succeeds if and only if the three required flags are set,
whatever `mysql-query` is; and when one of the three is not set the run ends with the
configuration error of `validateArgs` with an empty trace: no fetch, no submission, no
output. -/
theorem validateArgs_gate (c : Context) (db : Database) (api : ChimpApi) :
    (validateArgs c = .ok () ↔
      (c.IsSet "mailchimp-api-key" = true ∧ c.IsSet "mysql-connection-string" = true ∧
        c.IsSet "mailchimp-list-name" = true)) ∧
    (∀ c2 : Context, (∀ name, name ≠ "mysql-query" → c2.IsSet name = c.IsSet name) →
      validateArgs c2 = validateArgs c) ∧
    (¬ (c.IsSet "mailchimp-api-key" = true ∧ c.IsSet "mysql-connection-string" = true ∧
        c.IsSet "mailchimp-list-name" = true) →
      ∃ msg, validateArgs c = .error (.config msg) ∧
        (syncMailChimp c db api).outcome = .error (.config msg) ∧
        (syncMailChimp c db api).trace = [] ∧
        (syncMailChimp c db api).fetches = [] ∧
        (syncMailChimp c db api).submitted = [] ∧
        (syncMailChimp c db api).prints = []) := by
  refine ⟨validateArgs_ok_iff c, ?_, ?_⟩
  · intro c2 h
    unfold validateArgs
    rw [h "mailchimp-api-key" (by decide), h "mysql-connection-string" (by decide),
      h "mailchimp-list-name" (by decide)]
  · intro hmiss
    cases hv : validateArgs c with
    | ok u => exact absurd ((validateArgs_ok_iff c).mp hv) hmiss
    | error f =>
      obtain ⟨msg, rfl⟩ := validateArgs_error_config c f hv
      refine ⟨msg, rfl, ?_⟩
      rw [syncMailChimp_config c db api _ hv]
      simp [Run.fetches, Run.submitted, Run.prints]

/-- Witness of C7: with the list name missing the run stops before any effect. -/
theorem validateArgs_gate_witness :
    ∃ msg,
      validateArgs (ctxOf ["mailchimp-api-key", "mysql-connection-string", "mysql-query"] id) =
        .error (.config msg) ∧
      (syncMailChimp (ctxOf ["mailchimp-api-key", "mysql-connection-string", "mysql-query"] id)
        (dbOf janeAndBob) (apiOf sampleResponse)).outcome = .error (.config msg) ∧
      (syncMailChimp (ctxOf ["mailchimp-api-key", "mysql-connection-string", "mysql-query"] id)
        (dbOf janeAndBob) (apiOf sampleResponse)).trace = [] ∧
      (syncMailChimp (ctxOf ["mailchimp-api-key", "mysql-connection-string", "mysql-query"] id)
        (dbOf janeAndBob) (apiOf sampleResponse)).fetches = [] ∧
      (syncMailChimp (ctxOf ["mailchimp-api-key", "mysql-connection-string", "mysql-query"] id)
        (dbOf janeAndBob) (apiOf sampleResponse)).submitted = [] ∧
      (syncMailChimp (ctxOf ["mailchimp-api-key", "mysql-connection-string", "mysql-query"] id)
        (dbOf janeAndBob) (apiOf sampleResponse)).prints = [] :=
  (validateArgs_gate (ctxOf ["mailchimp-api-key", "mysql-connection-string", "mysql-query"] id)
    (dbOf janeAndBob) (apiOf sampleResponse)).2.2 (by decide)

/-- C8: once the configuration is valid and the fetch has succeeded, the run ends in a
failure if and only if the submission returns an error; then the failure is that
transport error and the only text printed is "Synchronising N entries": no summary
line, no error line; and for every response the submission returns, whatever its
counts and errors, the run prints after that text the summary
"Added: a, Updated: u, Error: e" of the response and the message of each of its
errors, in order, each ended by a newline, and ends without failure. -/
theorem abort_iff_transport_failure (c : Context) (db : Database) (api : ChimpApi)
    (subscribers : List Entry)
    (hv : validateArgs c = .ok ())
    (hf : getEntriesToSync db (c.String "mysql-connection-string") (c.String "mysql-query") =
      .ok subscribers) :
    ((∃ f, (syncMailChimp c db api).outcome = .error f) ↔
      ∃ err, api.BatchSubscribe (c.String "mailchimp-api-key")
        (batchUpdateRequest (c.String "mailchimp-api-key") (c.String "mailchimp-list-name")
          subscribers) = .error err) ∧
    (∀ err, api.BatchSubscribe (c.String "mailchimp-api-key")
        (batchUpdateRequest (c.String "mailchimp-api-key") (c.String "mailchimp-list-name")
          subscribers) = .error err →
      (syncMailChimp c db api).outcome = .error (.transport err) ∧
      (syncMailChimp c db api).prints =
        ["Synchronising " ++ toString subscribers.length ++ " entries\n"]) ∧
    (∀ response, api.BatchSubscribe (c.String "mailchimp-api-key")
        (batchUpdateRequest (c.String "mailchimp-api-key") (c.String "mailchimp-list-name")
          subscribers) = .ok response →
      (syncMailChimp c db api).outcome = .ok () ∧
      (syncMailChimp c db api).prints =
        ("Synchronising " ++ toString subscribers.length ++ " entries\n") ::
          ("Added: " ++ toString response.AddCount ++ ", Updated: " ++
            toString response.UpdateCount ++ ", Error: " ++ toString response.ErrorCount ++ "\n")
          :: response.Error.map (fun e => e.Error ++ "\n")) := by
  have herr : ∀ err, api.BatchSubscribe (c.String "mailchimp-api-key")
        (batchUpdateRequest (c.String "mailchimp-api-key") (c.String "mailchimp-list-name")
          subscribers) = .error err →
      (syncMailChimp c db api).outcome = .error (.transport err) ∧
      (syncMailChimp c db api).prints =
        ["Synchronising " ++ toString subscribers.length ++ " entries\n"] := by
    intro err hs
    rw [syncMailChimp_transport c db api subscribers err hv hf hs]
    simp [Run.prints, Event.printed, fmtInt_natCast]
  have hok : ∀ response, api.BatchSubscribe (c.String "mailchimp-api-key")
        (batchUpdateRequest (c.String "mailchimp-api-key") (c.String "mailchimp-list-name")
          subscribers) = .ok response →
      (syncMailChimp c db api).outcome = .ok () ∧
      (syncMailChimp c db api).prints =
        ("Synchronising " ++ toString subscribers.length ++ " entries\n") ::
          ("Added: " ++ toString response.AddCount ++ ", Updated: " ++
            toString response.UpdateCount ++ ", Error: " ++ toString response.ErrorCount ++ "\n")
          :: response.Error.map (fun e => e.Error ++ "\n") := by
    intro response hs
    rw [syncMailChimp_done c db api subscribers response hv hf hs, ← report_eq]
    simp only [Run.prints, List.filterMap_append, printed_of_prints]
    simp [List.filterMap_cons, Event.printed, fmtInt_natCast]
  refine ⟨⟨?_, ?_⟩, herr, hok⟩
  · rintro ⟨f, hfail⟩
    cases hs : api.BatchSubscribe (c.String "mailchimp-api-key")
        (batchUpdateRequest (c.String "mailchimp-api-key") (c.String "mailchimp-list-name")
          subscribers) with
    | error err => exact ⟨err, rfl⟩
    | ok response =>
      rw [(hok response hs).1] at hfail
      cases hfail
  · rintro ⟨err, hs⟩
    exact ⟨_, (herr err hs).1⟩

/-- Witness of C8: a response listing a failed subscriber is reported, summary line
and error line, and the run ends without failure. -/
theorem abort_iff_transport_failure_witness :
    validateArgs fullCtx = .ok () ∧
    getEntriesToSync (dbOf janeAndBob) (fullCtx.String "mysql-connection-string")
        (fullCtx.String "mysql-query") =
      .ok [⟨"Jane", "Doe", "jane@x.com"⟩, ⟨"", "", "bob@x.com"⟩] ∧
    (syncMailChimp fullCtx (dbOf janeAndBob) (apiOf sampleResponse)).outcome = .ok () ∧
    (syncMailChimp fullCtx (dbOf janeAndBob) (apiOf sampleResponse)).prints =
      ["Synchronising 2 entries\n", "Added: 2, Updated: 1, Error: 1\n", "invalid\n"] :=
  ⟨rfl, rfl,
    (abort_iff_transport_failure fullCtx (dbOf janeAndBob) (apiOf sampleResponse)
      [⟨"Jane", "Doe", "jane@x.com"⟩, ⟨"", "", "bob@x.com"⟩] rfl rfl).2.2 sampleResponse rfl⟩

/-- C9: for every fetched sequence of records, the empty one included, the run submits
exactly one request, whether or not the submission succeeds, and that request holds
the payloads of all the records; for zero records it is the request with the API key,
the list id, the fixed flags and an empty list of payloads. -/
theorem one_submission (c : Context) (db : Database) (api : ChimpApi)
    (subscribers : List Entry)
    (hv : validateArgs c = .ok ())
    (hf : getEntriesToSync db (c.String "mysql-connection-string") (c.String "mysql-query") =
      .ok subscribers) :
    (syncMailChimp c db api).submitted =
      [batchUpdateRequest (c.String "mailchimp-api-key") (c.String "mailchimp-list-name")
        subscribers] ∧
    (batchUpdateRequest (c.String "mailchimp-api-key") (c.String "mailchimp-list-name")
        subscribers).Batch = subscribers.map newListsMember ∧
    (subscribers = [] →
      (syncMailChimp c db api).submitted =
        [{ ApiKey := c.String "mailchimp-api-key", ListId := c.String "mailchimp-list-name",
           Batch := [], DoubleOptin := false, UpdateExisting := true }]) := by
  have hsub : (syncMailChimp c db api).submitted =
      [batchUpdateRequest (c.String "mailchimp-api-key") (c.String "mailchimp-list-name")
        subscribers] := by
    cases hs : api.BatchSubscribe (c.String "mailchimp-api-key")
        (batchUpdateRequest (c.String "mailchimp-api-key") (c.String "mailchimp-list-name")
          subscribers) with
    | error err =>
      rw [syncMailChimp_transport c db api subscribers err hv hf hs]
      simp [Run.submitted, List.filterMap_cons, Event.request]
    | ok response =>
      rw [syncMailChimp_done c db api subscribers response hv hf hs]
      simp only [Run.submitted, List.filterMap_append, request_of_prints]
      simp [List.filterMap_cons, Event.request]
  refine ⟨hsub, by rw [batchUpdateRequest_eq], ?_⟩
  intro hnil
  rw [hsub, batchUpdateRequest_eq, hnil]
  rfl

/-- Witness of C9: a fetch of zero records still submits one request, with no payload. -/
theorem one_submission_witness :
    validateArgs fullCtx = .ok () ∧
    getEntriesToSync (dbOf twoColumnsNoRow) (fullCtx.String "mysql-connection-string")
        (fullCtx.String "mysql-query") = .ok [] ∧
    (syncMailChimp fullCtx (dbOf twoColumnsNoRow) (apiOf emptyResponse)).submitted =
      [{ ApiKey := fullCtx.String "mailchimp-api-key",
         ListId := fullCtx.String "mailchimp-list-name",
         Batch := [], DoubleOptin := false, UpdateExisting := true }] :=
  ⟨rfl, rfl,
    (one_submission fullCtx (dbOf twoColumnsNoRow) (apiOf emptyResponse) [] rfl rfl).2.2 rfl⟩

/-- C10 (as stated, refuted): a successful run on the rows of Jane and Bob writes
"Synchronising 2 entries" before the summary line, so standard output is not the
report alone and its first line is not the summary line; and when the message of the
one failed subscriber holds a newline, two lines follow the summary line. -/
theorem stdout_starts_with_synchronising :
    (syncMailChimp fullCtx (dbOf janeAndBob) (apiOf sampleResponse)).outcome = .ok () ∧
    (syncMailChimp fullCtx (dbOf janeAndBob) (apiOf sampleResponse)).stdout =
      "Synchronising 2 entries\nAdded: 2, Updated: 1, Error: 1\ninvalid\n" ∧
    String.join (report sampleResponse) = "Added: 2, Updated: 1, Error: 1\ninvalid\n" ∧
    (syncMailChimp fullCtx (dbOf janeAndBob) (apiOf sampleResponse)).stdout ≠
      String.join (report sampleResponse) ∧
    (syncMailChimp fullCtx (dbOf janeAndBob) (apiOf sampleResponse)).prints.head? =
      some "Synchronising 2 entries\n" ∧
    (textLines (syncMailChimp fullCtx (dbOf janeAndBob) (apiOf sampleResponse)).stdout).head? =
      some "Synchronising 2 entries" ∧
    (syncMailChimp fullCtx (dbOf janeAndBob) (apiOf newlineResponse)).outcome = .ok () ∧
    newlineResponse.Error.length = 1 ∧
    textLines (syncMailChimp fullCtx (dbOf janeAndBob) (apiOf newlineResponse)).stdout =
      ["Synchronising 2 entries", "Added: 0, Updated: 0, Error: 1", "two", "lines"] := by
  refine ⟨rfl, by decide, by decide, by decide, by decide, by decide, rfl, rfl, by decide⟩

/-- C10 (amended): for every successful run, the complete text written to standard
output is "Synchronising N entries" for the N fetched records, ended by a newline,
then the summary with the counts, ended by a newline, then for each failed subscriber,
in order, the error message of the provider, ended by a newline, and nothing else;
when no message holds a newline these are the line "Synchronising N entries", the
summary line, and one line per failed subscriber, each being the message. -/
theorem stdout_of_successful_run (c : Context) (db : Database) (api : ChimpApi)
    (hok : (syncMailChimp c db api).outcome = .ok ()) :
    ∃ subscribers response,
      getEntriesToSync db (c.String "mysql-connection-string") (c.String "mysql-query") =
        .ok subscribers ∧
      api.BatchSubscribe (c.String "mailchimp-api-key")
        (batchUpdateRequest (c.String "mailchimp-api-key") (c.String "mailchimp-list-name")
          subscribers) = .ok response ∧
      (syncMailChimp c db api).stdout =
        "Synchronising " ++ toString subscribers.length ++ " entries\n" ++
          ("Added: " ++ toString response.AddCount ++ ", Updated: " ++
            toString response.UpdateCount ++ ", Error: " ++ toString response.ErrorCount ++ "\n" ++
            String.join (response.Error.map fun e => e.Error ++ "\n")) ∧
      ((∀ e ∈ response.Error, NoNewline e.Error) →
        textLines (syncMailChimp c db api).stdout =
          ("Synchronising " ++ toString subscribers.length ++ " entries") ::
            ("Added: " ++ toString response.AddCount ++ ", Updated: " ++
              toString response.UpdateCount ++ ", Error: " ++ toString response.ErrorCount)
            :: response.Error.map (fun e => e.Error)) := by
  rcases syncMailChimp_cases c db api with ⟨f, _, hrun⟩ | ⟨f, _, _, hrun⟩ |
    ⟨subs, err, _, _, _, hrun⟩ | ⟨subs, resp, _, hf, hs, hrun⟩
  · rw [hrun] at hok; cases hok
  · rw [hrun] at hok; cases hok
  · rw [hrun] at hok; cases hok
  · have hp : (syncMailChimp c db api).prints =
        ("Synchronising " ++ toString subs.length ++ " entries\n") :: report resp := by
      rw [hrun]
      simp only [Run.prints, List.filterMap_append, printed_of_prints]
      simp [List.filterMap_cons, Event.printed, fmtInt_natCast]
    refine ⟨subs, resp, hf, hs, ?_, ?_⟩
    · rw [Run.stdout, hp, join_cons, report_eq, join_cons]
    · intro hmsgs
      rw [Run.stdout, hp]
      exact textLines_stdout subs.length resp hmsgs

/-- Witness of C10 (amended): the successful run on the rows of Jane and Bob, with the
response whose one message is "invalid". -/
theorem stdout_of_successful_run_witness :
    (syncMailChimp fullCtx (dbOf janeAndBob) (apiOf sampleResponse)).outcome = .ok () ∧
    ∃ subscribers response,
      getEntriesToSync (dbOf janeAndBob) (fullCtx.String "mysql-connection-string")
        (fullCtx.String "mysql-query") = .ok subscribers ∧
      (apiOf sampleResponse).BatchSubscribe (fullCtx.String "mailchimp-api-key")
        (batchUpdateRequest (fullCtx.String "mailchimp-api-key")
          (fullCtx.String "mailchimp-list-name") subscribers) = .ok response ∧
      (syncMailChimp fullCtx (dbOf janeAndBob) (apiOf sampleResponse)).stdout =
        "Synchronising " ++ toString subscribers.length ++ " entries\n" ++
          ("Added: " ++ toString response.AddCount ++ ", Updated: " ++
            toString response.UpdateCount ++ ", Error: " ++ toString response.ErrorCount ++ "\n" ++
            String.join (response.Error.map fun e => e.Error ++ "\n")) ∧
      ((∀ e ∈ response.Error, NoNewline e.Error) →
        textLines (syncMailChimp fullCtx (dbOf janeAndBob) (apiOf sampleResponse)).stdout =
          ("Synchronising " ++ toString subscribers.length ++ " entries") ::
            ("Added: " ++ toString response.AddCount ++ ", Updated: " ++
              toString response.UpdateCount ++ ", Error: " ++ toString response.ErrorCount)
            :: response.Error.map (fun e => e.Error)) :=
  ⟨rfl, stdout_of_successful_run fullCtx (dbOf janeAndBob) (apiOf sampleResponse) rfl⟩

end MailchimpSync
